import Mathlib

/-!
Verification of the Gallerist image-variant pipeline (`src/gallerist/core.py`,
`src/gallerist/abc.py`) through a shallow embedding in Lean 4.

Conventions of the embedding:
* Python integers are `Nat` (all quantities here are non-negative);
  Python float division chains are modelled exactly over `ℚ` and Python's
  `int()` truncation as `Int.toNat ∘ Int.floor` (values are non-negative).
* A Python function that can raise is an `Except`-valued function; the
  Gallerist exception classes and the relevant external errors are the
  constructors of `GError`.
* PIL (the external imaging library) is modelled abstractly: a decoded image
  is a record of the observable attributes the core reads (size, mode,
  detected format, frame count, EXIF orientation); `Image.open` on bytes that
  are not a valid image (in particular an empty byte string) raises, which we
  model with `FileData.rawData`.
* The store capability of `abc.py` is a record holding the read behaviour and
  the arity of its `write_file` signature; `abc.py`, `fs.py` and the test
  stores all declare `write_file(self, file_path, data, info)`, i.e. three
  required parameters, while a hypothetical permissive store could accept the
  two-argument call that `core.py` makes.  Python's call binding is modelled
  by `callWriteFile2`.
* `uuid.uuid4()` in `new_id` is nondeterministic; runs are parameterised by
  an id supply `idGen : Nat → String` giving the id of the k-th `new_id` call.
-/

namespace GalleristLib

/-- `gallerist/abc.py`, class `FileInfo`: mime and extension of a file. -/
structure FileInfo where
  mime : String
  extension : String
deriving DecidableEq

/-- `gallerist/core.py`, class `ImageFormat`.  `isGifClass` records whether the
object is an instance of the `GifFormat` subclass, whose `to_bytes` override
is dispatched on the object's class, not on its `name` field. -/
structure ImageFormat where
  mime : String
  name : String
  extension : String
  quality : Int
  isGifClass : Bool
deriving DecidableEq

/-- `JpegFormat()`: `('image/jpeg', 'JPEG', '.jpg', 80)`. -/
def jpegFormat : ImageFormat := ⟨"image/jpeg", "JPEG", ".jpg", 80, false⟩

/-- `PJpegFormat()`: `('image/pjpeg', 'JPEG', '.jpg', 80)`. -/
def pjpegFormat : ImageFormat := ⟨"image/pjpeg", "JPEG", ".jpg", 80, false⟩

/-- `PngFormat()`: `('image/png', 'PNG', '.png', -1)`. -/
def pngFormat : ImageFormat := ⟨"image/png", "PNG", ".png", -1, false⟩

/-- `MpoFormat()`: `('image/mpo', 'JPEG', '.jpg', 80)`. -/
def mpoFormat : ImageFormat := ⟨"image/mpo", "JPEG", ".jpg", 80, false⟩

/-- `GifFormat()`: `('image/gif', 'GIF', '.gif', -1)` with the animated
`to_bytes` override. -/
def gifFormat : ImageFormat := ⟨"image/gif", "GIF", ".gif", -1, true⟩

/-- `Gallerist.default_formats` (class attribute, lines 271-277). -/
def default_formats : List ImageFormat :=
  [jpegFormat, pjpegFormat, pngFormat, gifFormat, mpoFormat]

/-- `gallerist/core.py`, class `ImageSize`. -/
structure ImageSize where
  name : String
  resize_to : Nat
deriving DecidableEq

/-- `gallerist/core.py`, class `ImageVersion`.  `file_name` is `None` until
assigned in the generation loop. -/
structure ImageVersion where
  size_name : String
  id : String
  max_side : Nat
  file_name : Option String
deriving DecidableEq

/-- `gallerist/core.py`, class `ImageMetadata`. -/
structure ImageMetadata where
  width : Nat
  height : Nat
  extension : String
  mime : String
  versions : List ImageVersion
deriving DecidableEq

/-- Abstract model of a decoded PIL image: the attributes `core.py` reads.
`format` is the decoder-detected format (`None` on images produced by
`convert`/`rotate`/`resize`); `exifOrientation` is the value of EXIF tag 274
when the image carries EXIF data containing it. -/
structure PILImage where
  width : Nat
  height : Nat
  mode : String
  format : Option String
  nFrames : Nat
  exifOrientation : Option Nat
deriving DecidableEq

/-- `gallerist/core.py`, class `ImageWrapper`: an image plus, for animated
results, a materialised list of frames. -/
structure ImageWrapper where
  image : PILImage
  frames : Option (List PILImage)
deriving DecidableEq

/-- `ImageWrapper.n_frames`: `if self.frames: len(self.frames)` (a `None` or
empty list is falsy) `else getattr(self.image, 'n_frames', 1)`. -/
def wrapperNFrames (w : ImageWrapper) : Nat :=
  match w.frames with
  | some fs => if fs.length ≠ 0 then fs.length else w.image.nFrames
  | none => w.image.nFrames

/-- The errors a `process_image` run can raise: the `GalleristError`
subclasses of `core.py`, plus PIL's `UnidentifiedImageError` (raised by
`Image.open` on bytes that are not a valid image, e.g. `b''`) and Python's
`TypeError` (raised when a call does not bind a function's signature). -/
inductive GError where
  | missingImageFormat
  | sizesNotConfiguredForMime (mime : String)
  | formatNotConfiguredWithName (name : String)
  | formatNotConfiguredForMime (mime : String)
  | expectedSyncStore
  | expectedAsyncStore
  | sourceImageNotFound
  | unidentifiedImage
  | typeError
deriving DecidableEq

/-- Content of a stored file, as seen through PIL: either bytes that decode
to an image, or bytes (possibly empty) that PIL cannot identify. -/
inductive FileData where
  | imageData (img : PILImage)
  | rawData (bytes : List Nat)
deriving DecidableEq

/-- `PIL.Image.open(BytesIO(data))`: decodes valid image bytes, raises
`UnidentifiedImageError` otherwise (an empty byte string is never a valid
image). -/
def pilOpen : FileData → Except GError PILImage
  | .imageData img => .ok img
  | .rawData _ => .error .unidentifiedImage

/-- The result of `ImageFormat.to_bytes` / `GifFormat.to_bytes`: an abstract
encoding recording exactly what the save call serialises (the saved image's
format name, quality parameter when passed, dimensions, mode, and for the
animated save the frame count). -/
inductive EncodedImage where
  | single (formatName : String) (quality : Option Int)
      (width : Nat) (height : Nat) (mode : String)
  | animated (width : Nat) (height : Nat) (mode : String) (nFrames : Nat)
deriving DecidableEq

/-- `ImageFormat.to_bytes` (lines 75-83) with the `GifFormat` override
(lines 115-131): the base method saves `wrapper.image` under
`image.format`, passing `quality` only when `quality > 0`; `GifFormat`
saves all frames when `n_frames != 1`. -/
def format_to_bytes (fmt : ImageFormat) (w : ImageWrapper) : EncodedImage :=
  if fmt.isGifClass ∧ wrapperNFrames w ≠ 1 then
    .animated w.image.width w.image.height w.image.mode (wrapperNFrames w)
  else
    .single ((w.image.format).getD "")
      (if fmt.quality > 0 then some fmt.quality else none)
      w.image.width w.image.height w.image.mode

/-- A write call as issued by `core.py`: the two positional arguments it
passes to `store.write_file` (lines 459 and 475).  Note there is no
`FileInfo` component: the core never constructs one. -/
structure WriteCall where
  path : String
  data : EncodedImage
deriving DecidableEq

/-- A store inheriting `SyncFileStore` of `abc.py`.  `readFile` returns the
file's content, or `none` when the store's `read_file` returns `None`.
`writeFileRequiredParams` is the number of required positional parameters
(after `self`) in the store's `write_file` signature: 3 for the signature
declared in `abc.py` and implemented in `fs.py` and in the test stores
(`file_path, data, info`), 2 for a permissive store whose `info` parameter
has a default. -/
structure SyncFileStore where
  readFile : String → Option FileData
  writeFileRequiredParams : Nat

/-- A store inheriting `FileStore` of `abc.py` (the asynchronous capability);
same observable fields, awaited by the caller. -/
structure AsyncFileStore where
  readFile : String → Option FileData
  writeFileRequiredParams : Nat

/-- Python call binding of `store.write_file(image_name, data)` — a call with
two positional arguments — against a signature with `requiredParams`
required parameters: it binds when `requiredParams ≤ 2`, otherwise Python
raises `TypeError` (missing required positional argument). -/
def callWriteFile2 (requiredParams : Nat) (path : String) (data : EncodedImage) :
    Except GError WriteCall :=
  if requiredParams ≤ 2 then .ok ⟨path, data⟩ else .error .typeError

/-- A Python dict with string keys, in insertion order. -/
def Dict (α : Type) : Type := List (String × α)

/-- `key in d` / `d[key]` on a Python dict: the value stored for `key`. -/
def lookupDict {α : Type} (d : Dict α) (k : String) : Option α :=
  match d with
  | [] => none
  | (k', v) :: rest => if k' = k then some v else lookupDict rest k

/-- The descending key order used by
`sorted(items, key=lambda x: x.resize_to, reverse=True)`. -/
def sizeDescOrder (a b : ImageSize) : Prop := b.resize_to ≤ a.resize_to

instance : DecidableRel sizeDescOrder := fun a b => by
  unfold sizeDescOrder; infer_instance

instance : IsTotal ImageSize sizeDescOrder :=
  ⟨fun a b => (le_total b.resize_to a.resize_to).imp id id⟩

instance : IsTrans ImageSize sizeDescOrder :=
  ⟨fun _ _ _ h h' => le_trans h' h⟩

/-- `sorted(items, key=lambda x: x.resize_to, reverse=True)`: a stable sort,
descending by `resize_to`. -/
def pySortedDesc (l : List ImageSize) : List ImageSize :=
  l.insertionSort sizeDescOrder

/-- The `sizes` property setter (lines 289-294): replaces every value of the
dict by its list sorted descending by `resize_to`. -/
def sizesSetter (d : Dict (List ImageSize)) : Dict (List ImageSize) :=
  d.map fun kv => (kv.1, pySortedDesc kv.2)

/-- `Gallerist.default_sizes` (class attribute, lines 264-269). -/
def default_sizes : Dict (List ImageSize) :=
  [("*", [⟨"medium", 1200⟩, ⟨"thumbnail", 200⟩]),
   ("image/gif", [⟨"medium", 200⟩, ⟨"thumbnail", 120⟩])]

/-- Python truthiness of `formats`: `formats or self.default_formats` takes
the default when `formats` is `None` or an empty sequence. -/
def pyOrFormats (formatsOpt : Option (List ImageFormat)) : List ImageFormat :=
  match formatsOpt with
  | none => default_formats
  | some l => if l.isEmpty then default_formats else l

/-- Python truthiness of `sizes`: `sizes or self.default_sizes` takes the
default when `sizes` is `None` or an empty dict. -/
def pyOrSizes (sizesOpt : Option (Dict (List ImageSize))) : Dict (List ImageSize) :=
  match sizesOpt with
  | none => default_sizes
  | some d => if d.isEmpty then default_sizes else d

/-- The configuration state of a `Gallerist` instance (the `store` attribute
is passed separately to the operations in this embedding). -/
structure Gallerist where
  formats : List ImageFormat
  sizes : Dict (List ImageSize)

/-- `Gallerist.__init__` (lines 255-262): `self.formats = formats or
self.default_formats; self.sizes = sizes or self.default_sizes`, the latter
running the `sizes` setter. -/
def galleristInit (sizesOpt : Option (Dict (List ImageSize)))
    (formatsOpt : Option (List ImageFormat)) : Gallerist :=
  { formats := pyOrFormats formatsOpt,
    sizes := sizesSetter (pyOrSizes sizesOpt) }

/-- `Gallerist.sizes_for_mime` (lines 296-302): exact mime match, else the
wildcard entry, else `SizesNotConfiguredForMimeError`.  (In the source this
is a generator; the error is raised when the caller first iterates it, which
is observationally the same place in every caller.) -/
def sizes_for_mime (g : Gallerist) (image_mime : String) :
    Except GError (List ImageSize) :=
  match lookupDict g.sizes image_mime with
  | some l => .ok l
  | none =>
    match lookupDict g.sizes "*" with
    | some l => .ok l
    | none => .error (.sizesNotConfiguredForMime image_mime)

/-- Python truthiness of an optional string: `None` and `''` are falsy. -/
def pyTruthyStr : Option String → Bool
  | none => false
  | some s => !s.isEmpty

/-- `x or default` on an optional string. -/
def pyOrStr (o : Option String) (dflt : String) : String :=
  match o with
  | none => dflt
  | some s => if s.isEmpty then dflt else s

/-- ASCII lower-casing of one character (model of Python `str.lower`,
structural so that the kernel can evaluate it). -/
def pyCharLower (c : Char) : Char :=
  if 65 ≤ c.toNat ∧ c.toNat ≤ 90 then Char.ofNat (c.toNat + 32) else c

/-- ASCII upper-casing of one character (model of Python `str.upper`). -/
def pyCharUpper (c : Char) : Char :=
  if 97 ≤ c.toNat ∧ c.toNat ≤ 122 then Char.ofNat (c.toNat - 32) else c

/-- Python `s.lower()` (ASCII model). -/
def pyLower (s : String) : String := String.mk (s.toList.map pyCharLower)

/-- Python `s.upper()` (ASCII model). -/
def pyUpper (s : String) : String := String.mk (s.toList.map pyCharUpper)

/-- `Gallerist.get_format` (lines 304-317): use the `image_format` argument
when truthy, else the decoder-detected `image.format`; if still falsy raise
`MissingImageFormatError`; otherwise upper-case it and scan the configured
formats for a matching canonical name, raising
`FormatNotConfiguredWithNameError` on a miss. -/
def get_format (g : Gallerist) (image : PILImage) (image_format : Option String) :
    Except GError ImageFormat :=
  let fmt := if pyTruthyStr image_format then image_format else image.format
  if !pyTruthyStr fmt then .error .missingImageFormat
  else
    let s := pyUpper (fmt.getD "")
    match g.formats.find? (fun f => f.name = s) with
    | some f => .ok f
    | none => .error (.formatNotConfiguredWithName s)

/-- Splits a character list at every occurrence of `sep` (used to take the
basename after the last `'/'`, as `os.path.splitext` does with the path
separator). -/
def splitCharsAux (sep : Char) : List Char → List Char → List (List Char)
  | [], acc => [acc.reverse]
  | c :: rest, acc =>
    if c = sep then acc.reverse :: splitCharsAux sep rest []
    else splitCharsAux sep rest (c :: acc)

/-- Index of the last `'.'` in a list of characters, if any. -/
def lastDotIndex (cs : List Char) : Option Nat :=
  (List.range cs.length).foldl
    (fun acc i => if cs.getD i ' ' = '.' then some i else acc) none

/-- `os.path.splitext(file_path)[1]` (via `get_file_extension`, lines 15-17):
the suffix of the basename from its last dot, provided some earlier character
of the basename is not a dot (so `'.gitignore'` has no extension). -/
def get_file_extension (file_path : String) : String :=
  let cs := (splitCharsAux '/' file_path.toList []).getLastD []
  match lastDotIndex cs with
  | none => ""
  | some i =>
    if (cs.take i).any (fun c => c ≠ '.') then String.mk (cs.drop i) else ""

/-- `Gallerist.format_by_extension` (lines 412-421). -/
def format_by_extension (image_path : String) : Option String :=
  let ext := pyLower (get_file_extension image_path)
  if ext = ".jpg" ∨ ext = ".jpeg" then some "JPEG"
  else if ext = ".png" then some "PNG"
  else if ext = ".gif" then some "GIF"
  else none

/-- `img.rotate(degrees, expand=True)`: with expansion, a 90° or 270°
rotation swaps width and height; the rotated copy's `format` attribute is
`None` (PIL sets `format` only on images produced by a reader). -/
def pilRotate (img : PILImage) (degrees : Nat) : PILImage :=
  if degrees = 90 ∨ degrees = 270 then
    { img with width := img.height, height := img.width, format := none }
  else
    { img with format := none }

/-- `image.convert('RGB')`: the converted copy has mode `'RGB'` and
`format = None`. -/
def pilConvertRGB (img : PILImage) : PILImage :=
  { img with mode := "RGB", format := none }

/-- `Gallerist.auto_rotate` (lines 334-352): when EXIF tag 274 is present,
orientation 3 rotates 180°, 6 rotates 270°, 8 rotates 90° (expanded); any
other value, or absent EXIF, leaves the image untouched. -/
def auto_rotate (img : PILImage) : PILImage :=
  match img.exifOrientation with
  | none => img
  | some o =>
    if o = 3 then pilRotate img 180
    else if o = 6 then pilRotate img 270
    else if o = 8 then pilRotate img 90
    else img

/-- `Gallerist._verify_mode_and_rotation` (lines 354-361): GIF images pass
through; otherwise the image is converted to RGB only when its mode equals
the string `'CMK'` (sic — the source compares against `'CMK'`, not
`'CMYK'`), then auto-rotated. -/
def verify_mode_and_rotation (image : PILImage) : PILImage :=
  if image.format = some "GIF" then image
  else
    let image := if image.mode = "CMK" then pilConvertRGB image else image
    auto_rotate image

/-- Python `int()` on a non-negative rational: truncation (= floor). -/
def pyInt (q : ℚ) : Nat := (Int.floor q).toNat

/-- `img.resize(sc, filter)`: the resized copy has the requested dimensions
and `format = None`; mode and frame structure are preserved. -/
def pilResize (img : PILImage) (sc : Nat × Nat) : PILImage :=
  { img with width := sc.1, height := sc.2, format := none }

/-- `Gallerist.resize_to_max_side` (lines 363-389).  When the longer side is
at most `desired_max_side` the very same image is returned, wrapped.
Otherwise the target size is computed with Python float division and `int()`
truncation (modelled exactly over `ℚ`), a single-frame image is resized
once, and a multi-frame image has every frame resized and the wrapper built
from the frame list. -/
def resize_to_max_side (image : PILImage) (desired_max_side : Nat) :
    ImageWrapper :=
  let width := image.width
  let height := image.height
  let max_side := max width height
  if max_side ≤ desired_max_side then ⟨image, none⟩
  else
    let sc :=
      if width ≥ height then
        (desired_max_side,
         pyInt ((height : ℚ) / ((width : ℚ) / (desired_max_side : ℚ))))
      else
        (pyInt ((width : ℚ) / ((height : ℚ) / (desired_max_side : ℚ))),
         desired_max_side)
    if image.nFrames = 1 then ⟨pilResize image sc, none⟩
    else
      ⟨pilResize image sc,
       some (List.replicate image.nFrames (pilResize image sc))⟩

/-- `Gallerist.get_image_name` (lines 407-410):
`f'{version.size_name[0]}-{version.id}{image_format.extension}'`.  (Size
names are assumed non-empty, as in every configuration in the repository;
Python would raise `IndexError` on an empty name.) -/
def get_image_name (version : ImageVersion) (image_format : ImageFormat) :
    String :=
  String.mk (version.size_name.toList.take 1) ++ "-" ++ version.id ++
    image_format.extension

/-- `Gallerist.get_metadata` (lines 494-503): metadata seeded from the
normalized, pre-resize image dimensions and the chosen format. -/
def get_metadata (image : PILImage) (image_format : ImageFormat) :
    ImageMetadata :=
  ⟨image.width, image.height, image_format.extension, image_format.mime, []⟩

/-- `wrapper.format = image_format.name` via the `ImageWrapper.format`
setter (lines 47-49): sets the wrapped image's `format` attribute. -/
def wrapperSetFormat (w : ImageWrapper) (name : String) : ImageWrapper :=
  { w with image := { w.image with format := some name } }

/-- The body of the `for version in self.get_versions(...)` loop of
`Gallerist._generate_images` (lines 468-475), iterated over the configured
sizes: assign a fresh id (`idGen k` for the k-th `new_id` call), derive the
file name, append the version to the metadata, resize, tag the output
format, encode, and perform the store write (a two-argument call).  A write
that raises aborts the loop; writes already performed remain in the log. -/
def generate_loop (store : SyncFileStore) (image : PILImage)
    (image_format : ImageFormat) (idGen : Nat → String) (k : Nat)
    (sizes : List ImageSize) (md : ImageMetadata) (log : List WriteCall) :
    Except GError ImageMetadata × List WriteCall :=
  match sizes with
  | [] => (.ok md, log)
  | size :: rest =>
    let version : ImageVersion := ⟨size.name, idGen k, size.resize_to, none⟩
    let image_name := get_image_name version image_format
    let version := { version with file_name := some image_name }
    let md := { md with versions := md.versions ++ [version] }
    let resized_image := resize_to_max_side image size.resize_to
    let resized_image := wrapperSetFormat resized_image image_format.name
    match callWriteFile2 store.writeFileRequiredParams image_name
        (format_to_bytes image_format resized_image) with
    | .error e => (.error e, log)
    | .ok wc => generate_loop store image image_format idGen (k + 1) rest md
        (log ++ [wc])

/-- `Gallerist._generate_images` (lines 463-477): seed the metadata, then
run the per-size loop over `get_versions(image_format.mime)` (whose
underlying `sizes_for_mime` lookup may raise). -/
def generate_images (g : Gallerist) (store : SyncFileStore) (image : PILImage)
    (image_format : ImageFormat) (idGen : Nat → String) :
    Except GError ImageMetadata × List WriteCall :=
  let metadata := get_metadata image image_format
  match sizes_for_mime g image_format.mime with
  | .error e => (.error e, [])
  | .ok sizes => generate_loop store image image_format idGen 0 sizes metadata []

/-- `Gallerist.process_image` (lines 391-405), for a store inheriting
`SyncFileStore` (so the `isinstance` guard passes): read the source, map a
`None` result to `SourceImageNotFoundError`, decode and normalize, choose
the format via `get_format(image, format_by_extension(path) or 'JPEG')`,
and generate the variants.  The result pairs the returned metadata (or the
raised error) with the sequence of store writes performed. -/
def process_image (g : Gallerist) (store : SyncFileStore)
    (source_image_path : String) (idGen : Nat → String) :
    Except GError ImageMetadata × List WriteCall :=
  match store.readFile source_image_path with
  | none => (.error .sourceImageNotFound, [])
  | some data =>
    match pilOpen data with
    | .error e => (.error e, [])
    | .ok img =>
      let image := verify_mode_and_rotation img
      match get_format g image
          (some (pyOrStr (format_by_extension source_image_path) "JPEG")) with
      | .error e => (.error e, [])
      | .ok image_format => generate_images g store image image_format idGen

/-- The body of the loop of `Gallerist._generate_images_async`
(lines 452-459), transcribed from the asynchronous source: identical steps,
with the resize executed through `loop.run_in_executor` (same pure
computation) and the write awaited. -/
def generate_loop_async (store : AsyncFileStore) (image : PILImage)
    (image_format : ImageFormat) (idGen : Nat → String) (k : Nat)
    (sizes : List ImageSize) (md : ImageMetadata) (log : List WriteCall) :
    Except GError ImageMetadata × List WriteCall :=
  match sizes with
  | [] => (.ok md, log)
  | size :: rest =>
    let version : ImageVersion := ⟨size.name, idGen k, size.resize_to, none⟩
    let image_name := get_image_name version image_format
    let version := { version with file_name := some image_name }
    let md := { md with versions := md.versions ++ [version] }
    let resized_image := resize_to_max_side image size.resize_to
    let resized_image := wrapperSetFormat resized_image image_format.name
    match callWriteFile2 store.writeFileRequiredParams image_name
        (format_to_bytes image_format resized_image) with
    | .error e => (.error e, log)
    | .ok wc => generate_loop_async store image image_format idGen (k + 1) rest
        md (log ++ [wc])

/-- `Gallerist._generate_images_async` (lines 445-461). -/
def generate_images_async (g : Gallerist) (store : AsyncFileStore)
    (image : PILImage) (image_format : ImageFormat) (idGen : Nat → String) :
    Except GError ImageMetadata × List WriteCall :=
  let metadata := get_metadata image image_format
  match sizes_for_mime g image_format.mime with
  | .error e => (.error e, [])
  | .ok sizes =>
    generate_loop_async store image image_format idGen 0 sizes metadata []

/-- `Gallerist.process_image_async` (lines 423-443), for a store inheriting
`FileStore` (so the `isinstance` guard passes; the `loop` and `executor`
arguments only choose where the pure resize runs). -/
def process_image_async (g : Gallerist) (store : AsyncFileStore)
    (source_image_path : String) (idGen : Nat → String) :
    Except GError ImageMetadata × List WriteCall :=
  match store.readFile source_image_path with
  | none => (.error .sourceImageNotFound, [])
  | some data =>
    match pilOpen data with
    | .error e => (.error e, [])
    | .ok img =>
      let image := verify_mode_and_rotation img
      match get_format g image
          (some (pyOrStr (format_by_extension source_image_path) "JPEG")) with
      | .error e => (.error e, [])
      | .ok image_format => generate_images_async g store image image_format idGen

/-- Object-level model of the Python heap for the `sizes` setter: list
objects live at numeric references; `nextRef` is the next fresh reference,
so every reference of an existing object is below it in a well-formed
state. -/
structure SizesHeap where
  nextRef : Nat
  lists : Nat → List ImageSize

/-- The `sizes` setter (lines 289-294) at the level of objects:
`for key, items in value.items(): value[key] = sorted(items, ...)` walks the
caller's dict in insertion order and rebinds each slot to a freshly
allocated list (Python's `sorted` always returns a new list object) holding
the sorted content.  The dict object itself is mutated in place — the
returned entry list is the state of the same dict the caller passed in, and
`self._sizes` is then bound to that same dict. -/
def sizesSetterAlloc (st : SizesHeap) :
    List (String × Nat) → SizesHeap × List (String × Nat)
  | [] => (st, [])
  | (key, r) :: rest =>
    let sortedObj := pySortedDesc (st.lists r)
    let newRef := st.nextRef
    let st2 : SizesHeap :=
      ⟨st.nextRef + 1, fun i => if i = newRef then sortedObj else st.lists i⟩
    let p := sizesSetterAlloc st2 rest
    (p.1, (key, newRef) :: p.2)

/-- Python's `round` on a non-negative rational: nearest integer, ties to
even (used to state the specification's `round(shortSide / ratio)`
formula). -/
def pyRound (q : ℚ) : Nat :=
  let f := Int.floor q
  let frac := q - f
  (if frac < 1 / 2 then f
   else if 1 / 2 < frac then f + 1
   else if 2 ∣ f then f else f + 1).toNat

/-! ### Helper lemmas -/

theorem lookupDict_sizesSetter (d : Dict (List ImageSize)) (k : String) :
    lookupDict (sizesSetter d) k = (lookupDict d k).map pySortedDesc := by
  induction d with
  | nil => rfl
  | cons kv rest ih =>
    by_cases h : kv.1 = k
    · simp [sizesSetter, lookupDict, h]
    · simp [sizesSetter, lookupDict, h] at ih ⊢
      exact ih

theorem pairwise_pySortedDesc (l : List ImageSize) :
    List.Pairwise sizeDescOrder (pySortedDesc l) :=
  List.sorted_insertionSort sizeDescOrder l

/-- For a Gallerist built by the constructor, every size list that
`sizes_for_mime` can return is one of the setter's sorted lists. -/
theorem sizes_for_mime_init_eq_sorted (sizesOpt : Option (Dict (List ImageSize)))
    (formatsOpt : Option (List ImageFormat)) (mime : String)
    (l : List ImageSize)
    (h : sizes_for_mime (galleristInit sizesOpt formatsOpt) mime = .ok l) :
    ∃ l0, l = pySortedDesc l0 := by
  unfold sizes_for_mime at h
  simp only [galleristInit, lookupDict_sizesSetter] at h
  cases h1 : (lookupDict (pyOrSizes sizesOpt) mime).map pySortedDesc with
  | some v =>
    rw [h1] at h
    obtain ⟨l0, _, h2⟩ := Option.map_eq_some'.mp h1
    exact ⟨l0, by simp_all⟩
  | none =>
    rw [h1] at h
    cases h2 : (lookupDict (pyOrSizes sizesOpt) "*").map pySortedDesc with
    | some v =>
      rw [h2] at h
      obtain ⟨l0, _, h3⟩ := Option.map_eq_some'.mp h2
      exact ⟨l0, by simp_all⟩
    | none => rw [h2] at h; exact absurd h (by simp)

/-- A non-empty hint string makes `get_format` ignore the image entirely and
scan the configured formats for the upper-cased hint. -/
theorem get_format_truthy_hint (g : Gallerist) (img : PILImage) (hint : String)
    (h : hint.isEmpty = false) :
    get_format g img (some hint) =
      match g.formats.find? (fun f => f.name = pyUpper hint) with
      | some f => .ok f
      | none => .error (.formatNotConfiguredWithName (pyUpper hint)) := by
  unfold get_format
  simp [pyTruthyStr, h]

theorem pyOrStr_isEmpty_false (o : Option String) :
    (pyOrStr o "JPEG").isEmpty = false := by
  cases o with
  | none => rfl
  | some s =>
    by_cases h : s.isEmpty
    · rw [pyOrStr, if_pos h]; rfl
    · rw [pyOrStr, if_neg h]
      exact Bool.not_eq_true _ ▸ h

/-- `sizes_for_mime` raises only `SizesNotConfiguredForMimeError`. -/
theorem sizes_for_mime_error_eq (g : Gallerist) (mime : String) (e : GError)
    (h : sizes_for_mime g mime = .error e) :
    e = .sizesNotConfiguredForMime mime := by
  unfold sizes_for_mime at h
  cases h1 : lookupDict g.sizes mime with
  | some v => rw [h1] at h; exact absurd h (by simp)
  | none =>
    rw [h1] at h
    cases h2 : lookupDict g.sizes "*" with
    | some v => rw [h2] at h; exact absurd h (by simp)
    | none =>
      rw [h2] at h
      exact (Except.error.inj h).symm

/-- The only error the write loop itself can raise is `TypeError` (from the
two-argument call against a three-parameter `write_file` signature). -/
theorem generate_loop_error_eq_typeError (store : SyncFileStore)
    (image : PILImage) (fmtF : ImageFormat) (idGen : Nat → String) :
    ∀ (sizes : List ImageSize) (k : Nat) (md : ImageMetadata)
      (log : List WriteCall) (e : GError),
      (generate_loop store image fmtF idGen k sizes md log).1 = .error e →
      e = .typeError := by
  intro sizes
  induction sizes with
  | nil => intro _ _ _ _ h; simp [generate_loop] at h
  | cons size rest ih =>
    intro k md log e h
    rw [generate_loop] at h
    by_cases hp : store.writeFileRequiredParams ≤ 2
    · simp only [callWriteFile2, if_pos hp] at h
      exact ih _ _ _ _ h
    · simp only [callWriteFile2, if_neg hp] at h
      exact (Except.error.inj h).symm

theorem generate_images_fst_ne_missing (g : Gallerist) (store : SyncFileStore)
    (image : PILImage) (fmtF : ImageFormat) (idGen : Nat → String) :
    (generate_images g store image fmtF idGen).1 ≠
      .error .missingImageFormat := by
  unfold generate_images
  cases h : sizes_for_mime g fmtF.mime with
  | error e =>
    simp only
    intro hc
    have he := sizes_for_mime_error_eq g fmtF.mime e h
    rw [Except.error.inj hc] at he
    simp at he
  | ok sizes =>
    simp only
    intro hc
    have := generate_loop_error_eq_typeError store image fmtF idGen sizes 0
      (get_metadata image fmtF) [] .missingImageFormat hc
    exact absurd this (by decide)

/-- The synchronous and asynchronous generation loops compute identically on
stores with the same fields. -/
theorem generate_loops_sync_async_eq (read : String → Option FileData)
    (arity : Nat) (image : PILImage) (fmtF : ImageFormat) (idGen : Nat → String) :
    ∀ (sizes : List ImageSize) (k : Nat) (md : ImageMetadata)
      (log : List WriteCall),
      generate_loop ⟨read, arity⟩ image fmtF idGen k sizes md log =
        generate_loop_async ⟨read, arity⟩ image fmtF idGen k sizes md log := by
  intro sizes
  induction sizes with
  | nil => intro k md log; rfl
  | cons size rest ih =>
    intro k md log
    simp only [generate_loop, generate_loop_async]
    split
    · rfl
    · exact ih _ _ _

theorem generate_images_sync_async_eq (g : Gallerist)
    (read : String → Option FileData) (arity : Nat) (image : PILImage)
    (fmtF : ImageFormat) (idGen : Nat → String) :
    generate_images g ⟨read, arity⟩ image fmtF idGen =
      generate_images_async g ⟨read, arity⟩ image fmtF idGen := by
  unfold generate_images generate_images_async
  cases sizes_for_mime g fmtF.mime with
  | error e => rfl
  | ok sizes => exact generate_loops_sync_async_eq read arity image fmtF idGen sizes 0 _ []

/-- `process_image` and `process_image_async` compute identically on stores
with the same fields. -/
theorem process_sync_async_eq (g : Gallerist) (read : String → Option FileData)
    (arity : Nat) (path : String) (idGen : Nat → String) :
    process_image g ⟨read, arity⟩ path idGen =
      process_image_async g ⟨read, arity⟩ path idGen := by
  unfold process_image process_image_async
  rw [show SyncFileStore.readFile ⟨read, arity⟩ path = read path from rfl,
      show AsyncFileStore.readFile ⟨read, arity⟩ path = read path from rfl]
  cases hr : read path with
  | none => rfl
  | some data =>
    cases data with
    | rawData bs => rfl
    | imageData im =>
      simp only [pilOpen]
      cases get_format g (verify_mode_and_rotation im)
          (some (pyOrStr (format_by_extension path) "JPEG")) with
      | error e => rfl
      | ok fmtF => exact generate_images_sync_async_eq g read arity _ fmtF idGen

/-! ### Claims -/

/-- A constant id supply used by the concrete runs below (the id of every
`new_id()` call is `"abc"`). -/
def constIds : Nat → String := fun _ => "abc"

/-- C7: for every image where `max(width, height) ≤ desiredMaxSide`,
`resize_to_max_side` returns an image with unchanged dimensions — in fact
the very same image object, with no frame list (no upscaling, no copy). -/
theorem C7_no_upscale (img : PILImage) (desired : Nat)
    (h : max img.width img.height ≤ desired) :
    resize_to_max_side img desired = ⟨img, none⟩ := by
  unfold resize_to_max_side
  rw [if_pos h]

/-- Witness for C7 at a concrete 150×100 PNG and `desiredMaxSide` 1200. -/
theorem C7_no_upscale_witness :
    max (150 : Nat) 100 ≤ 1200 ∧
    resize_to_max_side ⟨150, 100, "RGB", some "PNG", 1, none⟩ 1200 =
      ⟨⟨150, 100, "RGB", some "PNG", 1, none⟩, none⟩ :=
  ⟨by decide, C7_no_upscale ⟨150, 100, "RGB", some "PNG", 1, none⟩ 1200 (by decide)⟩

/-- C3 (amended): when the store's `read_file` returns `None` for the source
path, both `process_image` and `process_image_async` fail with
`SourceImageNotFoundError` and no store write occurs.  (An *empty* byte
string is not treated as missing: see the counterexample.) -/
theorem C3_none_read_fails_without_writes (g : Gallerist)
    (read : String → Option FileData) (arity : Nat) (path : String)
    (idGen : Nat → String) (h : read path = none) :
    process_image g ⟨read, arity⟩ path idGen =
      (.error .sourceImageNotFound, []) ∧
    process_image_async g ⟨read, arity⟩ path idGen =
      (.error .sourceImageNotFound, []) := by
  unfold process_image process_image_async
  rw [show SyncFileStore.readFile ⟨read, arity⟩ path = read path from rfl,
      show AsyncFileStore.readFile ⟨read, arity⟩ path = read path from rfl, h]
  exact ⟨rfl, rfl⟩

/-- Witness for C3 (amended): a store with no file at all. -/
theorem C3_none_read_fails_without_writes_witness :
    (fun _ : String => (none : Option FileData)) "missing.jpg" = none ∧
    (process_image (galleristInit none none) ⟨fun _ => none, 3⟩ "missing.jpg"
        constIds = (.error .sourceImageNotFound, []) ∧
     process_image_async (galleristInit none none) ⟨fun _ => none, 3⟩
        "missing.jpg" constIds = (.error .sourceImageNotFound, [])) :=
  ⟨rfl, C3_none_read_fails_without_writes (galleristInit none none)
    (fun _ => none) 3 "missing.jpg" constIds rfl⟩

/-- A store whose `read_file` returns an empty byte string (`b''`). -/
def emptyBytesStore : SyncFileStore := ⟨fun _ => some (.rawData []), 3⟩

/-- C3 counterexample: when `read_file` returns *empty* data (the claim's
"missing or empty"), `process_image` does not fail with
`SourceImageNotFound`: `data is None` is false for `b''`, so the empty bytes
reach `Image.open`, which raises PIL's `UnidentifiedImageError` instead. -/
theorem C3_counterexample_empty_bytes :
    emptyBytesStore.readFile "empty.jpg" = some (.rawData []) ∧
    process_image (galleristInit none none) emptyBytesStore "empty.jpg"
      constIds = (.error .unidentifiedImage, []) ∧
    GError.unidentifiedImage ≠ GError.sourceImageNotFound :=
  ⟨rfl, rfl, by decide⟩

/-- A 1×1 RGB image with no decoder-detected format. -/
def blankImage : PILImage := ⟨1, 1, "RGB", none, 1, none⟩

/-- C4 counterexample: constructing a Gallerist with a zero-length `formats`
collection is *not* rejected at lookup time, and the empty collection *is*
silently replaced by a default: `formats or self.default_formats` treats an
empty sequence like `None`, so the instance carries the five default formats
and `get_format` succeeds. -/
theorem C4_counterexample_empty_formats :
    (galleristInit none (some [])).formats = default_formats ∧
    (galleristInit none (some [])).formats ≠ [] ∧
    get_format (galleristInit none (some [])) blankImage (some "JPEG") =
      .ok jpegFormat :=
  ⟨rfl, by decide, rfl⟩

/-- C4 (amended): a zero-length `formats` collection is silently replaced by
`default_formats` at construction (the constructor's `or` fallback treats an
empty sequence like `None`); construction succeeds and a subsequent format
lookup succeeds against the defaults, so no configuration error is raised at
any point. -/
theorem C4_empty_formats_silently_defaulted
    (sizesOpt : Option (Dict (List ImageSize))) (img : PILImage) :
    (galleristInit sizesOpt (some [])).formats = default_formats ∧
    get_format (galleristInit sizesOpt (some [])) img (some "JPEG") =
      .ok jpegFormat := by
  constructor
  · rfl
  · rw [get_format_truthy_hint _ _ _ (by rfl)]
    rfl

/-- C9: for the same source bytes (store read behaviour), configuration,
write-signature arity and generated ids, the synchronous `process_image` and
the asynchronous `process_image_async` return equal metadata (width, height,
mime, extension and the same ordered versions) and perform the same sequence
of store writes. -/
theorem C9_sync_async_equivalent (g : Gallerist)
    (read : String → Option FileData) (arity : Nat) (path : String)
    (idGen : Nat → String) :
    process_image g ⟨read, arity⟩ path idGen =
      process_image_async g ⟨read, arity⟩ path idGen :=
  process_sync_async_eq g read arity path idGen

/-- `process_image` can never raise `MissingImageFormatError`: the hint it
passes to `get_format` (line 401) is `format_by_extension(path) or 'JPEG'`,
always a non-empty string, so `get_format` never reaches its
`MissingImageFormatError` branch, and no later step raises it either. -/
theorem process_image_fst_ne_missing (g : Gallerist) (store : SyncFileStore)
    (path : String) (idGen : Nat → String) :
    (process_image g store path idGen).1 ≠ .error .missingImageFormat := by
  unfold process_image
  cases hr : store.readFile path with
  | none => simp
  | some data =>
    simp only
    cases data with
    | rawData bs => simp [pilOpen]
    | imageData im =>
      simp only [pilOpen]
      rw [get_format_truthy_hint _ _ _ (pyOrStr_isEmpty_false _)]
      cases hf : g.formats.find?
          (fun f => f.name = pyUpper (pyOrStr (format_by_extension path) "JPEG")) with
      | none => simp
      | some f =>
        simp only
        exact generate_images_fst_ne_missing g store _ f idGen

theorem process_image_async_fst_ne_missing (g : Gallerist)
    (read : String → Option FileData) (arity : Nat) (path : String)
    (idGen : Nat → String) :
    (process_image_async g ⟨read, arity⟩ path idGen).1 ≠
      .error .missingImageFormat := by
  rw [← process_sync_async_eq]
  exact process_image_fst_ne_missing g ⟨read, arity⟩ path idGen

/-- C1 (amended): `process_image` / `process_image_async` take no
caller-supplied format hint; the format name passed to `get_format` is
derived from the path's extension with a hard-coded `'JPEG'` fallback, so
the decoder-detected format is never consulted for format choice
(`get_format`'s result is independent of the image) and the call can never
fail with `MissingImageFormat`. -/
theorem C1_format_from_extension_never_missing (g : Gallerist)
    (read : String → Option FileData) (arity : Nat) (path : String)
    (idGen : Nat → String) (img img2 : PILImage) :
    (process_image g ⟨read, arity⟩ path idGen).1 ≠
      .error .missingImageFormat ∧
    (process_image_async g ⟨read, arity⟩ path idGen).1 ≠
      .error .missingImageFormat ∧
    get_format g img (some (pyOrStr (format_by_extension path) "JPEG")) =
      get_format g img2 (some (pyOrStr (format_by_extension path) "JPEG")) :=
  ⟨process_image_fst_ne_missing g ⟨read, arity⟩ path idGen,
   process_image_async_fst_ne_missing g read arity path idGen,
   by rw [get_format_truthy_hint _ _ _ (pyOrStr_isEmpty_false _),
          get_format_truthy_hint _ _ _ (pyOrStr_isEmpty_false _)]⟩

/-- A 10×10 image whose decoder-detected format is PNG. -/
def pngDetectedImage : PILImage := ⟨10, 10, "RGB", some "PNG", 1, none⟩

/-- A permissive store holding `pngDetectedImage` at `image.bmp` (a path
whose extension maps to no format). -/
def pngDetectedStore : SyncFileStore :=
  ⟨fun p => if p = "image.bmp" then some (.imageData pngDetectedImage) else none, 2⟩

/-- C1 counterexample: the source at `image.bmp` decodes with detected
format PNG and the extension yields no format, yet `process_image` (which
has no hint parameter) produces JPEG metadata — under the claim the decoder's
PNG would have been used (mime `image/png`), and with no format determined
by hint/decoder/extension the claim would require `MissingImageFormat`;
instead the hard-coded `'JPEG'` fallback wins. -/
theorem C1_counterexample_decoder_ignored :
    pngDetectedImage.format = some "PNG" ∧
    format_by_extension "image.bmp" = none ∧
    (process_image (galleristInit none none) pngDetectedStore "image.bmp"
        constIds).1 =
      .ok ⟨10, 10, ".jpg", "image/jpeg",
        [⟨"medium", "abc", 1200, some "m-abc.jpg"⟩,
         ⟨"thumbnail", "abc", 200, some "t-abc.jpg"⟩]⟩ ∧
    ("image/jpeg" : String) ≠ "image/png" :=
  ⟨rfl, rfl, rfl, by decide⟩

/-- A 100×80 CMYK-mode JPEG, as decoded by PIL from the repository's own
test file `files/channel_digital_image_CMYK_color.jpg`. -/
def cmykImage : PILImage := ⟨100, 80, "CMYK", some "JPEG", 1, none⟩

/-- A permissive store holding the CMYK JPEG. -/
def cmykStore : SyncFileStore :=
  ⟨fun p => if p = "files/channel_digital_image_CMYK_color.jpg" then
      some (.imageData cmykImage) else none, 2⟩

/-- C2 (code bug): `_verify_mode_and_rotation` guards the RGB conversion
with `image.mode == 'CMK'` — a string that is not a PIL mode — so a
CMYK-mode JPEG passes through unconverted and every written variant is
encoded from a CMYK image, contradicting the claim and the repository's own
`test_cmyk_gets_converted_to_rgb` (which asserts the reopened medium
variant has mode RGB). -/
theorem C2_cmyk_not_converted :
    cmykImage.mode = "CMYK" ∧
    verify_mode_and_rotation cmykImage = cmykImage ∧
    (process_image (galleristInit none none) cmykStore
        "files/channel_digital_image_CMYK_color.jpg" constIds).2 =
      [⟨"m-abc.jpg", .single "JPEG" (some 80) 100 80 "CMYK"⟩,
       ⟨"t-abc.jpg", .single "JPEG" (some 80) 100 80 "CMYK"⟩] ∧
    ("CMYK" : String) ≠ "RGB" :=
  ⟨rfl, rfl, rfl, by decide⟩

/-- A 100×80 RGB JPEG at `photo.jpg`. -/
def rgbImage : PILImage := ⟨100, 80, "RGB", some "JPEG", 1, none⟩

/-- A store conforming to `abc.py`: its `write_file` has the three required
parameters `(file_path, data, info)` declared by `SyncFileStore` and
implemented by `fs.py` and the repository's test stores. -/
def conformingStore : SyncFileStore :=
  ⟨fun p => if p = "photo.jpg" then some (.imageData rgbImage) else none, 3⟩

/-- C6 (code bug): `_generate_images` calls
`store.write_file(image_name, bytes)` with only two positional arguments and
never constructs a `FileInfo`; against the three-parameter signature
declared in `abc.py` (and required by the stores in `fs.py` and in the
tests) the very first write raises `TypeError`, so no write ever carries a
`fileInfo{mime, extension}` argument. -/
theorem C6_write_call_missing_fileinfo :
    process_image (galleristInit none none) conformingStore "photo.jpg"
      constIds = (.error .typeError, []) ∧
    callWriteFile2 3 "m-abc.jpg" (.single "JPEG" (some 80) 100 80 "RGB") =
      .error .typeError :=
  ⟨rfl, rfl⟩

/-- The truncated two-step float division of `resize_to_max_side`, computed
exactly over `ℚ`, equals floor division on naturals:
`int(h / (w / d)) = h·d ÷ w`. -/
theorem pyInt_div_div (h w d : Nat) :
    pyInt ((h : ℚ) / ((w : ℚ) / (d : ℚ))) = h * d / w := by
  rw [pyInt, div_div_eq_mul_div]
  have hc : ((h : ℚ) * (d : ℚ)) = ((h * d : ℕ) : ℚ) := by push_cast; ring
  rw [hc, Rat.floor_natCast_div_natCast, ← Int.natCast_div, Int.toNat_natCast]

/-- In the downscaling case with `width ≥ height`, the result of
`resize_to_max_side` wraps `image.resize((desired, int(height / (width /
desired))))` (whether single- or multi-frame). -/
theorem resize_image_eq_wide (img : PILImage) (d : Nat)
    (hgt : ¬ max img.width img.height ≤ d) (hw : img.width ≥ img.height) :
    (resize_to_max_side img d).image =
      pilResize img
        (d, pyInt ((img.height : ℚ) / ((img.width : ℚ) / (d : ℚ)))) := by
  unfold resize_to_max_side
  rw [if_neg hgt, if_pos hw]
  split <;> rfl

/-- In the downscaling case with `width < height`, the result of
`resize_to_max_side` wraps `image.resize((int(width / (height / desired)),
desired))`. -/
theorem resize_image_eq_tall (img : PILImage) (d : Nat)
    (hgt : ¬ max img.width img.height ≤ d) (hw : ¬ img.width ≥ img.height) :
    (resize_to_max_side img d).image =
      pilResize img
        (pyInt ((img.width : ℚ) / ((img.height : ℚ) / (d : ℚ))), d) := by
  unfold resize_to_max_side
  rw [if_neg hgt, if_neg hw]
  split <;> rfl

/-- C5 (amended): for every image whose longer side exceeds
`desiredMaxSide` (> 0), `resize_to_max_side` makes the long side exactly
`desiredMaxSide` and the short side `shortSide * desiredMaxSide / longSide`
rounded *down* (Python `int()` truncation of `shortSide / ratio`), not
`round(shortSide / ratio)`. -/
theorem C5_resize_dimensions (img : PILImage) (d : Nat) (_hd : 0 < d)
    (hgt : d < max img.width img.height) :
    (img.width ≥ img.height →
      (resize_to_max_side img d).image.width = d ∧
      (resize_to_max_side img d).image.height =
        img.height * d / img.width) ∧
    (¬ img.width ≥ img.height →
      (resize_to_max_side img d).image.height = d ∧
      (resize_to_max_side img d).image.width =
        img.width * d / img.height) := by
  have hgt2 : ¬ max img.width img.height ≤ d := not_le.mpr hgt
  constructor
  · intro hw
    rw [resize_image_eq_wide img d hgt2 hw]
    exact ⟨rfl, pyInt_div_div img.height img.width d⟩
  · intro hw
    rw [resize_image_eq_tall img d hgt2 hw]
    exact ⟨rfl, pyInt_div_div img.width img.height d⟩

/-- A 1000×999 JPEG: scaling it to max side 100 exercises the truncation. -/
def tallImage : PILImage := ⟨1000, 999, "RGB", some "JPEG", 1, none⟩

/-- Witness for C5 (amended) at the 1000×999 image and maxSide 100. -/
theorem C5_resize_dimensions_witness :
    0 < 100 ∧ 100 < max tallImage.width tallImage.height ∧
    ((tallImage.width ≥ tallImage.height →
       (resize_to_max_side tallImage 100).image.width = 100 ∧
       (resize_to_max_side tallImage 100).image.height =
         tallImage.height * 100 / tallImage.width) ∧
     (¬ tallImage.width ≥ tallImage.height →
       (resize_to_max_side tallImage 100).image.height = 100 ∧
       (resize_to_max_side tallImage 100).image.width =
         tallImage.width * 100 / tallImage.height)) :=
  ⟨by decide, by decide, C5_resize_dimensions tallImage 100 (by decide) (by decide)⟩

/-- C5 counterexample: at 1000×999 with `desiredMaxSide = 100` the code
computes the short side with `int()` truncation, giving 99, whereas the
claim's `round(shortSide / ratio) = round(99.9) = 100`. -/
theorem C5_counterexample_truncation :
    (resize_to_max_side tallImage 100).image.width = 100 ∧
    (resize_to_max_side tallImage 100).image.height = 99 ∧
    pyRound ((999 : ℚ) / ((1000 : ℚ) / (100 : ℚ))) = 100 ∧
    (99 : Nat) ≠ 100 := by
  refine ⟨?_, ?_, ?_, by decide⟩
  · rw [resize_image_eq_wide tallImage 100 (by decide) (by decide)]
    rfl
  · rw [resize_image_eq_wide tallImage 100 (by decide) (by decide), pyInt_div_div]
    decide
  · have hq : ((999 : ℚ) / ((1000 : ℚ) / (100 : ℚ))) = 999 / 10 := by norm_num
    have hfloor : Int.floor ((999 : ℚ) / 10) = 99 := by
      rw [Int.floor_eq_iff]
      constructor <;> norm_num
    simp only [pyRound, hq, hfloor]
    norm_num
    decide

/-- The per-size loop appends, in iteration order, one version per
configured size, whose `max_side` is that size's `resize_to`. -/
theorem generate_loop_versions_map (store : SyncFileStore) (image : PILImage)
    (fmtF : ImageFormat) (idGen : Nat → String) :
    ∀ (sizes : List ImageSize) (k : Nat) (md : ImageMetadata)
      (log : List WriteCall) (md2 : ImageMetadata) (log2 : List WriteCall),
      generate_loop store image fmtF idGen k sizes md log = (.ok md2, log2) →
      md2.versions.map ImageVersion.max_side =
        md.versions.map ImageVersion.max_side ++
          sizes.map ImageSize.resize_to := by
  intro sizes
  induction sizes with
  | nil =>
    intro k md log md2 log2 h
    rw [generate_loop] at h
    obtain ⟨h1, h2⟩ := Prod.mk.injEq .. ▸ h
    rw [← Except.ok.inj h1]
    simp
  | cons size rest ih =>
    intro k md log md2 log2 h
    rw [generate_loop] at h
    split at h
    · exact absurd (congrArg Prod.fst h) (by simp)
    · have h2 := ih _ _ _ _ _ h
      simp only [List.map_append] at h2
      rw [h2]
      simp

/-- C8: after the `sizes` setter run by the constructor, every size list the
policy can return is sorted descending by `resize_to`
(`sizes[i].maxSide ≥ sizes[i+1].maxSide` for all `i`, whatever the input
order), and a successful generation run iterates the sizes in exactly that
order (the versions' `max_side` sequence equals the sorted list's
`resize_to` sequence). -/
theorem C8_sizes_sorted_descending (sizesOpt : Option (Dict (List ImageSize)))
    (formatsOpt : Option (List ImageFormat)) (mime : String)
    (l : List ImageSize)
    (h : sizes_for_mime (galleristInit sizesOpt formatsOpt) mime = .ok l) :
    List.Pairwise sizeDescOrder l ∧
    ∀ (store : SyncFileStore) (image : PILImage) (fmtF : ImageFormat)
      (idGen : Nat → String) (md : ImageMetadata) (log : List WriteCall),
      fmtF.mime = mime →
      generate_images (galleristInit sizesOpt formatsOpt) store image fmtF
        idGen = (.ok md, log) →
      md.versions.map ImageVersion.max_side = l.map ImageSize.resize_to := by
  constructor
  · obtain ⟨l0, hl⟩ := sizes_for_mime_init_eq_sorted sizesOpt formatsOpt mime l h
    rw [hl]
    exact pairwise_pySortedDesc l0
  · intro store image fmtF idGen md log hm hg
    unfold generate_images at hg
    rw [hm, h] at hg
    have h2 := generate_loop_versions_map store image fmtF idGen l 0
      (get_metadata image fmtF) [] md log hg
    simpa [get_metadata] using h2

/-- Witness for C8: the default configuration queried for `image/png` (no
exact entry, wildcard fallback), and a concrete successful run over a 10×10
image with a permissive store. -/
theorem C8_sizes_sorted_descending_witness :
    sizes_for_mime (galleristInit none none) "image/png" =
      .ok [⟨"medium", 1200⟩, ⟨"thumbnail", 200⟩] ∧
    (List.Pairwise sizeDescOrder [⟨"medium", 1200⟩, ⟨"thumbnail", 200⟩] ∧
     ∀ (store : SyncFileStore) (image : PILImage) (fmtF : ImageFormat)
       (idGen : Nat → String) (md : ImageMetadata) (log : List WriteCall),
       fmtF.mime = "image/png" →
       generate_images (galleristInit none none) store image fmtF idGen =
         (.ok md, log) →
       md.versions.map ImageVersion.max_side =
         ([⟨"medium", 1200⟩, ⟨"thumbnail", 200⟩] : List ImageSize).map
           ImageSize.resize_to) :=
  ⟨rfl, C8_sizes_sorted_descending none none "image/png"
    [⟨"medium", 1200⟩, ⟨"thumbnail", 200⟩] rfl⟩

/-- Running the setter leaves every pre-existing heap object untouched and
never decreases the allocation counter. -/
theorem sizesSetterAlloc_preserves (d : List (String × Nat)) :
    ∀ (st : SizesHeap) (j : Nat), j < st.nextRef →
      ((sizesSetterAlloc st d).1).lists j = st.lists j ∧
      st.nextRef ≤ ((sizesSetterAlloc st d).1).nextRef := by
  induction d with
  | nil => intro st j hj; exact ⟨rfl, le_refl _⟩
  | cons kv rest ih =>
    intro st j hj
    obtain ⟨k0, r0⟩ := kv
    have h1 := ih
      ⟨st.nextRef + 1,
       fun i => if i = st.nextRef then pySortedDesc (st.lists r0)
                else st.lists i⟩
      j (Nat.lt_succ_of_lt hj)
    simp only [sizesSetterAlloc]
    constructor
    · rw [h1.1]
      simp [Nat.ne_of_lt hj]
    · exact le_trans (Nat.le_succ _) h1.2

/-- C10: the `sizes` setter, run by the constructor on the caller-supplied
dict, rebinds every slot of that same dict, in order and under the same key,
to a freshly allocated list object (its reference is at least the old
allocation counter, in particular distinct from the old value's reference)
holding the old sequence sorted descending by `resize_to` — so after
construction the caller's original sequences are no longer reachable through
the dictionary. -/
theorem C10_sizes_setter_mutates_dict (st : SizesHeap)
    (d : List (String × Nat)) (hwf : ∀ p ∈ d, p.2 < st.nextRef) (i : Nat)
    (key : String) (r : Nat) (h : d.get? i = some (key, r)) :
    ∃ r2, ((sizesSetterAlloc st d).2).get? i = some (key, r2) ∧
      st.nextRef ≤ r2 ∧ r < r2 ∧
      ((sizesSetterAlloc st d).1).lists r2 = pySortedDesc (st.lists r) := by
  induction d generalizing st i with
  | nil => simp at h
  | cons kv rest ih =>
    obtain ⟨k0, r0⟩ := kv
    have hr0 : r0 < st.nextRef := hwf (k0, r0) (List.mem_cons_self _ _)
    cases i with
    | zero =>
      simp only [List.get?] at h
      obtain ⟨hk, hr⟩ := Prod.mk.injEq .. ▸ Option.some.inj h
      subst hk
      subst hr
      have hp := sizesSetterAlloc_preserves rest
        ⟨st.nextRef + 1,
         fun i => if i = st.nextRef then pySortedDesc (st.lists r0)
                  else st.lists i⟩
        st.nextRef (Nat.lt_succ_self _)
      refine ⟨st.nextRef, ?_, le_refl _, hr0, ?_⟩
      · simp [sizesSetterAlloc]
      · simp only [sizesSetterAlloc]
        rw [hp.1]
        simp
    | succ n =>
      simp only [List.get?] at h
      have hwf2 : ∀ p ∈ rest,
          p.2 < (⟨st.nextRef + 1,
            fun i => if i = st.nextRef then pySortedDesc (st.lists r0)
                     else st.lists i⟩ : SizesHeap).nextRef :=
        fun p hp => Nat.lt_succ_of_lt (hwf p (List.mem_cons_of_mem _ hp))
      have ih2 := ih
        ⟨st.nextRef + 1,
         fun i => if i = st.nextRef then pySortedDesc (st.lists r0)
                  else st.lists i⟩
        hwf2 n h
      obtain ⟨r2, h1, h2, h3, h4⟩ := ih2
      have hrne : r ≠ st.nextRef :=
        Nat.ne_of_lt (hwf (key, r) (List.mem_cons_of_mem _ (List.get?_mem h)))
      refine ⟨r2, ?_, le_trans (Nat.le_succ _) h2, h3, ?_⟩
      · simp only [sizesSetterAlloc, List.get?]
        exact h1
      · simp only [sizesSetterAlloc]
        rw [h4]
        simp [hrne]

/-- A well-formed one-entry heap: the wildcard key maps to the list object
at reference 0, holding sizes in ascending (unsorted) order. -/
def heapEx : SizesHeap :=
  ⟨1, fun i => if i = 0 then [⟨"thumbnail", 200⟩, ⟨"medium", 1200⟩] else []⟩

/-- Witness for C10 on the one-entry dict `{"*": ref 0}`. -/
theorem C10_sizes_setter_mutates_dict_witness :
    (∀ p ∈ ([("*", 0)] : List (String × Nat)), p.2 < heapEx.nextRef) ∧
    ([("*", 0)] : List (String × Nat)).get? 0 = some ("*", 0) ∧
    ∃ r2, ((sizesSetterAlloc heapEx [("*", 0)]).2).get? 0 = some ("*", r2) ∧
      heapEx.nextRef ≤ r2 ∧ 0 < r2 ∧
      ((sizesSetterAlloc heapEx [("*", 0)]).1).lists r2 =
        pySortedDesc (heapEx.lists 0) :=
  ⟨by decide, rfl,
   C10_sizes_setter_mutates_dict heapEx [("*", 0)] (by decide) 0 "*" 0 rfl⟩

end GalleristLib
